import Mathlib

/-!
Verification development for the video-player core of the streaming-web
repository (src/src/components/VideoPlayerModal.tsx).

The component is shallowly embedded: React state, the media element, the
adaptive-streaming engine handle, the pending-timeout table and the
localStorage record for the current video id are collected in a
`PlayerState` record, and every handler of the source file becomes a pure
function `PlayerState → PlayerState`.  Timeout handles are modelled
faithfully: `window.setTimeout` returns a fresh numeric handle which a ref
may store, and `window.clearTimeout` removes the pending entry with that
handle; a `setTimeout` whose handle is discarded (as in
`showLanguageOverlay` or `closeMenu`) leaves an untracked pending entry.
-/

namespace StreamingWeb

/-- Constant `DOUBLE_CLICK_SEEK` (line 69). -/
def DOUBLE_CLICK_SEEK : ℚ := 10

/-- Constant `CONTROLS_HIDE_MS` (line 70). -/
def CONTROLS_HIDE_MS : ℕ := 2200

/-- Constant `OVERLAY_DURATION` (line 152). -/
def OVERLAY_DURATION : ℕ := 1600

/-- Top-level `clamp(n, a = 0, b = 1) = Math.max(a, Math.min(b, n))` (line 72). -/
def clamp (n a b : ℚ) : ℚ := max a (min b n)

/-- Component-local `clamp(val, min, max) = Math.min(Math.max(val, min), max)`
(line 1361); it shadows the top-level one inside the component, so the
handlers below use this variant. -/
def clampC (val lo hi : ℚ) : ℚ := min (max val lo) hi

/-- JavaScript `Math.round`: round half toward positive infinity. -/
def jsRound (q : ℚ) : ℤ := ⌊q + 1 / 2⌋

/-- JavaScript string disjunction `a || b`: a string is falsy iff empty. -/
def jsOr (a b : String) : String := if a = "" then b else a

/-- JavaScript `s.includes(sub)`: some drop of the character list of `s`
starts with the character list of `sub`. -/
def strIncludes (s sub : String) : Bool :=
  (List.range (s.data.length + 1)).any (fun i => sub.data.isPrefixOf (s.data.drop i))

/-- JavaScript `s.endsWith(post)` over the character lists. -/
def strEndsWith (s post : String) : Bool := post.data.isSuffixOf s.data

/-- A JavaScript number as the media element exposes it for `duration`:
NaN, positive infinity, or a finite value. -/
inductive JSNum where
  | nan : JSNum
  | inf : JSNum
  | fin : ℚ → JSNum
deriving DecidableEq

/-- JavaScript truthiness of a number: NaN and 0 are falsy. -/
def JSNum.truthy : JSNum → Bool
  | .nan => false
  | .inf => true
  | .fin q => decide (q ≠ 0)

/-- JavaScript `x > 0` (false for NaN). -/
def JSNum.gtZero : JSNum → Bool
  | .nan => false
  | .inf => true
  | .fin q => decide (0 < q)

/-- JavaScript `isFinite`. -/
def JSNum.isFinite : JSNum → Bool
  | .fin _ => true
  | _ => false

/-- Numeric value of a finite JS number (only read under finiteness guards). -/
def JSNum.val : JSNum → ℚ
  | .fin q => q
  | _ => 0

/-- Mode of a text track of the media element. -/
inductive TrackMode where
  | disabled : TrackMode
  | hidden : TrackMode
  | showing : TrackMode
deriving DecidableEq

/-- A text track of the media element (`v.textTracks`). -/
structure TextTrack where
  language : String
  label : String
  mode : TrackMode
deriving DecidableEq

/-- Subtitle track metadata (src/src/types/index.ts, lines 5-9). -/
structure SubtitleTrack where
  lang : String
  url : String
  label : String
deriving DecidableEq

/-- Quality option (src/src/types/index.ts, lines 17-20). -/
structure QualityOpt where
  label : String
  url : String
deriving DecidableEq

/-- The HTML media element state the handlers read and write. -/
structure MediaEl where
  src : String
  currentTime : ℚ
  duration : JSNum
  paused : Bool
  volume : ℚ
  muted : Bool
  playbackRate : ℚ
  textTracks : List TextTrack
deriving DecidableEq

/-- The hls.js engine instance, recorded through the calls the component
makes on it (`currentLevel`, `startLoad`, `recoverMediaError`, `destroy`). -/
structure HlsState where
  currentLevel : ℤ
  startLoadCalled : Bool
  recoverCalled : Bool
  destroyed : Bool
deriving DecidableEq

/-- The localStorage record under `streamflex-player-settings-<id>` for the
current video.  Each field is absent or present; `activeSubtitle` may be
present and null, hence the nested option. -/
structure PersistedRecord where
  volume : Option ℚ
  playbackRate : Option ℚ
  activeSubtitle : Option (Option String)
deriving DecidableEq

/-- The empty JSON object `{}` used when no record is stored yet. -/
def PersistedRecord.empty : PersistedRecord := ⟨none, none, none⟩

/-- The overlay kinds whose timeouts the component schedules. -/
inductive TimerKind where
  | controls : TimerKind
  | cursor : TimerKind
  | flash : TimerKind
  | volHud : TimerKind
  | langHud : TimerKind
  | pausedInfo : TimerKind
  | mouseMove : TimerKind
  | ripple : TimerKind
  | menuFade : TimerKind
  | softError : TimerKind
deriving DecidableEq

/-- A pending `setTimeout` entry: its numeric handle, the overlay kind that
scheduled it, and its absolute expiry time in ms. -/
structure PendingTimer where
  id : ℕ
  kind : TimerKind
  expiresAt : ℕ
deriving DecidableEq

/-- The browser timer system: a clock, a fresh-handle counter, and the
table of pending timeouts. -/
structure TimerSys where
  now : ℕ
  nextId : ℕ
  pending : List PendingTimer
deriving DecidableEq

/-- `window.setTimeout(f, delay)`: returns the fresh handle and the system
with one more pending entry. -/
def TimerSys.setT (ts : TimerSys) (k : TimerKind) (delay : ℕ) : ℕ × TimerSys :=
  (ts.nextId,
   { ts with nextId := ts.nextId + 1,
             pending := ts.pending ++ [⟨ts.nextId, k, ts.now + delay⟩] })

/-- `window.clearTimeout(h)` on an optional handle (the refs guard with
`if (ref.current)` before clearing, and clearing a null handle is a no-op). -/
def TimerSys.clearT (ts : TimerSys) (h : Option ℕ) : TimerSys :=
  match h with
  | none => ts
  | some i => { ts with pending := ts.pending.filter (fun t => decide (t.id ≠ i)) }

/-- Flash overlay glyph (`"play" | "pause"`). -/
inductive FlashKind where
  | play : FlashKind
  | pause : FlashKind
deriving DecidableEq

/-- Language-overlay variants (`"audio" | "subtitle"`). -/
inductive LangKind where
  | audioKind : LangKind
  | subtitleKind : LangKind
deriving DecidableEq

/-- Open-menu state (`null | "subs" | "quality" | "settings"`). -/
inductive MenuKind where
  | subs : MenuKind
  | quality : MenuKind
  | settings : MenuKind
deriving DecidableEq

/-- The player instance state: the React state hooks, the timeout refs, the
media element, the engine handle, the storage record for this video, and
the timer system. -/
structure PlayerState where
  ts : TimerSys
  controlsTimeout : Option ℕ
  cursorTimeout : Option ℕ
  flashTimeout : Option ℕ
  volOverlayTimeout : Option ℕ
  pausedInfoTimeout : Option ℕ
  mouseMoveTimer : Option ℕ
  rippleTimeout : Option ℕ
  media : Option MediaEl
  hls : Option HlsState
  hlsSupported : Bool
  store : Option PersistedRecord
  isPlaying : Bool
  loading : Bool
  errorMessage : Option String
  error : Option String
  volume : ℚ
  isMuted : Bool
  playbackRate : ℚ
  showControls : Bool
  controlsVisibleDueToMove : Bool
  showCursorPlay : Bool
  flashType : Option FlashKind
  cursorPos : Option (ℚ × ℚ)
  ripple : Option (ℚ × ℚ)
  langOverlay : Option (LangKind × String)
  activeSubtitle : Option String
  subtitleTracks : List SubtitleTrack
  showVolumeOverlay : Bool
  volumeOverlayValue : ℤ
  showPausedInfo : Bool
  dimVideo : Bool
  currentTime : ℚ
  duration : ℚ
  progressPercent : ℚ
  bufferPercent : ℚ
  selectedQualityIndex : ℤ
  qualityList : List QualityOpt
  openMenu : Option MenuKind
  isMenuFading : Bool
deriving DecidableEq

/-- Initial state of a mounted player (the `useState` initialisers),
parametrised by the media element, engine support, the stored record for
this video id, and the static track metadata. -/
def initState (media : Option MediaEl) (hlsSup : Bool)
    (store : Option PersistedRecord) (subs : List SubtitleTrack)
    (quals : List QualityOpt) : PlayerState where
  ts := ⟨0, 0, []⟩
  controlsTimeout := none
  cursorTimeout := none
  flashTimeout := none
  volOverlayTimeout := none
  pausedInfoTimeout := none
  mouseMoveTimer := none
  rippleTimeout := none
  media := media
  hls := none
  hlsSupported := hlsSup
  store := store
  isPlaying := false
  loading := true
  errorMessage := none
  error := none
  volume := 1
  isMuted := false
  playbackRate := 1
  showControls := true
  controlsVisibleDueToMove := false
  showCursorPlay := false
  flashType := none
  cursorPos := none
  ripple := none
  langOverlay := none
  activeSubtitle := none
  subtitleTracks := subs
  showVolumeOverlay := false
  volumeOverlayValue := 100
  showPausedInfo := false
  dimVideo := false
  currentTime := 0
  duration := 0
  progressPercent := 0
  bufferPercent := 0
  selectedQualityIndex := -1
  qualityList := quals
  openMenu := none
  isMenuFading := false

/-- A bare player state used for concrete examples. -/
def initStateB : PlayerState := initState none true none [] []

/-- Let wall-clock time pass (no timer fires by itself in the model; firing
callbacks are modelled separately where a claim needs them). -/
def advance (d : ℕ) (s : PlayerState) : PlayerState :=
  { s with ts := { s.ts with now := s.ts.now + d } }

/-- Pending timeouts of one overlay kind. -/
def pendingOfKind (k : TimerKind) (s : PlayerState) : List PendingTimer :=
  s.ts.pending.filter (fun t => decide (t.kind = k))

/-! ## Overlay triggers (the per-kind setTimeout/clearTimeout pairs) -/

/-- `showLanguageOverlay` (lines 244-247): sets the overlay and schedules a
timeout whose handle is discarded — no previous timeout is cleared. -/
def showLanguageOverlay (ty : LangKind) (label : String) (s : PlayerState) : PlayerState :=
  let s := { s with langOverlay := some (ty, label) }
  let r := s.ts.setT .langHud OVERLAY_DURATION
  { s with ts := r.2 }

/-- `showControlsTemporarily` (lines 424-449): show the controls, clear the
previous controls timeout if any, schedule a new hide-after timeout and
store its handle.  (The expiry callback keeps controls visible while
paused; only the scheduling side matters for the timer claims.) -/
def showControlsTemporarily (s : PlayerState) : PlayerState :=
  let s := { s with showControls := true, controlsVisibleDueToMove := true }
  let s := { s with ts := s.ts.clearT s.controlsTimeout, controlsTimeout := none }
  let r := s.ts.setT .controls CONTROLS_HIDE_MS
  { s with ts := r.2, controlsTimeout := some r.1 }

/-- `triggerFlash` (lines 452-462): cancel-and-replace the flash timeout. -/
def triggerFlash (ty : FlashKind) (s : PlayerState) : PlayerState :=
  let s := { s with flashType := some ty }
  let s := { s with ts := s.ts.clearT s.flashTimeout, flashTimeout := none }
  let r := s.ts.setT .flash OVERLAY_DURATION
  { s with ts := r.2, flashTimeout := some r.1 }

/-- `showVolOverlay` (lines 465-476): cancel-and-replace the volume-HUD
timeout. -/
def showVolOverlay (val : ℚ) (s : PlayerState) : PlayerState :=
  let s := { s with volumeOverlayValue := jsRound (val * 100), showVolumeOverlay := true }
  let s := { s with ts := s.ts.clearT s.volOverlayTimeout, volOverlayTimeout := none }
  let r := s.ts.setT .volHud OVERLAY_DURATION
  { s with ts := r.2, volOverlayTimeout := some r.1 }

/-- `showCursorTransient` (lines 479-490, default duration 800ms):
cancel-and-replace the cursor timeout. -/
def showCursorTransient (x y : ℚ) (s : PlayerState) : PlayerState :=
  let s := { s with cursorPos := some (x, y), showCursorPlay := true }
  let s := { s with ts := s.ts.clearT s.cursorTimeout, cursorTimeout := none }
  let r := s.ts.setT .cursor 800
  { s with ts := r.2, cursorTimeout := some r.1 }

/-- `triggerRipple` (lines 196-204): cancel-and-replace the ripple timeout
(450ms). -/
def triggerRipple (x y : ℚ) (s : PlayerState) : PlayerState :=
  let s := { s with ts := s.ts.clearT s.rippleTimeout, rippleTimeout := none }
  let s := { s with ripple := some (x, y) }
  let r := s.ts.setT .ripple 450
  { s with ts := r.2, rippleTimeout := some r.1 }

/-- `closeMenu` (lines 1041-1047, default delay 200ms): start the fade and
schedule an anonymous timeout (handle discarded) that will close the menu. -/
def closeMenu (s : PlayerState) : PlayerState :=
  let s := { s with isMenuFading := true }
  let r := s.ts.setT .menuFade 200
  { s with ts := r.2 }

/-- `handleMouseMove` (lines 337-366): show controls, hide the paused info
if showing, clear the re-show timer, and re-arm it (2000ms) only while
paused. -/
def handleMouseMove (s : PlayerState) : PlayerState :=
  match s.media with
  | none => s
  | some v =>
    let s := { s with showControls := true }
    let s := showControlsTemporarily s
    let s := if s.showPausedInfo then { s with showPausedInfo := false, dimVideo := false } else s
    let s := { s with ts := s.ts.clearT s.mouseMoveTimer, mouseMoveTimer := none }
    if v.paused then
      let r := s.ts.setT .mouseMove 2000
      { s with ts := r.2, mouseMoveTimer := some r.1 }
    else s

/-- The `play` event listener `onPlay` (lines 794-810): set playing, hide
the paused info, clear both paused-info and mouse-move timers. -/
def onPlayEvent (s : PlayerState) : PlayerState :=
  let s := { s with isPlaying := true, showPausedInfo := false, dimVideo := false }
  let s := { s with ts := s.ts.clearT s.pausedInfoTimeout, pausedInfoTimeout := none }
  { s with ts := s.ts.clearT s.mouseMoveTimer, mouseMoveTimer := none }

/-- The `pause` event listener `onPause` (lines 813-832): clear the
mouse-move timer and arm the 10s paused-info timer only when none is
already pending (`if (!pausedInfoTimeout.current)`). -/
def onPauseEvent (s : PlayerState) : PlayerState :=
  let s := { s with isPlaying := false }
  let s := { s with ts := s.ts.clearT s.mouseMoveTimer, mouseMoveTimer := none }
  match s.pausedInfoTimeout with
  | some _ => s
  | none =>
    let r := s.ts.setT .pausedInfo 10000
    { s with ts := r.2, pausedInfoTimeout := some r.1 }

/-- The unmount teardown: the ripple-effect cleanup (lines 206-210), the
playback-listeners cleanup (lines 905-914), and the final cleanup effect
(lines 1469-1483) which clears the controls, cursor, flash and volume-HUD
timeouts and destroys the engine. -/
def unmountCleanup (s : PlayerState) : PlayerState :=
  let s := { s with ts := s.ts.clearT s.rippleTimeout }
  let s := { s with ts := s.ts.clearT s.pausedInfoTimeout, pausedInfoTimeout := none }
  let s := { s with ts := s.ts.clearT s.mouseMoveTimer, mouseMoveTimer := none }
  let s := { s with ts := s.ts.clearT s.controlsTimeout }
  let s := { s with ts := s.ts.clearT s.cursorTimeout }
  let s := { s with ts := s.ts.clearT s.flashTimeout }
  let s := { s with ts := s.ts.clearT s.volOverlayTimeout }
  { s with hls := none }

/-! ## Playback state synchronizer -/

/-- The `timeupdate` listener `onTime` (lines 834-849, heartbeat side
channel omitted): mirror `currentTime` and derive `progressPercent` only
under the guard `v.duration && v.duration > 0 && isFinite(v.duration)`. -/
def onTime (s : PlayerState) : PlayerState :=
  match s.media with
  | none => s
  | some v =>
    let s := { s with currentTime := v.currentTime }
    if v.duration.truthy && v.duration.gtZero && v.duration.isFinite then
      { s with progressPercent := v.currentTime / v.duration.val * 100 }
    else s

/-! ## Volume / rate / subtitle handlers and persistence -/

/-- `handleVolumeChange` (lines 1396-1419): clamp, store in session state,
mirror to the media element, read-merge-write the persisted record, show
the volume HUD. -/
def handleVolumeChange (val : ℚ) (s : PlayerState) : PlayerState :=
  let normalized := clampC val 0 1
  let s := { s with volume := normalized, isMuted := decide (normalized = 0) }
  let s :=
    match s.media with
    | some v => { s with media := some { v with volume := normalized,
                                                muted := decide (normalized = 0) } }
    | none => s
  let parsed := s.store.getD .empty
  let s := { s with store := some { parsed with volume := some normalized } }
  showVolOverlay normalized s

/-- `handlePlaybackRateChange` (lines 1428-1447): guarded against `r <= 0`;
set the rate on session state and the media element and read-merge-write
the persisted record. -/
def handlePlaybackRateChange (r : ℚ) (s : PlayerState) : PlayerState :=
  if r ≤ 0 then s
  else
    let s := { s with playbackRate := r }
    let s :=
      match s.media with
      | some v => { s with media := some { v with playbackRate := r } }
      | none => s
    let parsed := s.store.getD .empty
    { s with store := some { parsed with playbackRate := some r } }

/-- The per-track language key the subtitle switch compares against:
`(track as any).language || (track as any).label || ""` (line 992). -/
def trackLangOf (t : TextTrack) : String := jsOr t.language (jsOr t.label "")

/-- The mode assignment of `handleSubtitleChange` (lines 991-994):
every track whose language key equals `lang || ""` becomes showing, every
other track hidden. -/
def applySubtitleModes (lang : Option String) (tracks : List TextTrack) : List TextTrack :=
  tracks.map (fun t =>
    { t with mode := if trackLangOf t = lang.getD "" then TrackMode.showing
                     else TrackMode.hidden })

/-- `handleSubtitleChange` (lines 985-1017): set the active subtitle,
update the text-track modes, read-merge-write the persisted record, show
the language overlay with the selected label (or "Off"), close the menu. -/
def handleSubtitleChange (lang : Option String) (s : PlayerState) : PlayerState :=
  let s := { s with activeSubtitle := lang }
  match s.media with
  | none => s
  | some v =>
    let s := { s with media := some { v with textTracks := applySubtitleModes lang v.textTracks } }
    let parsed := s.store.getD .empty
    let s := { s with store := some { parsed with activeSubtitle := some lang } }
    let selected := s.subtitleTracks.find? (fun t => some t.lang == lang)
    let label := match selected with
                 | some t => jsOr t.label t.lang
                 | none => "Off"
    let s := showLanguageOverlay .subtitleKind label s
    closeMenu s

/-- The persisted-settings portion of the load effect (lines 500-775).
For an adaptive source — engine supported and a truthy URL ending in
`.m3u8` — the effect returns from inside the HLS branch (line 703) before
ever reaching the `localStorage` read at line 722, so the stored record is
not consulted; otherwise the record's fields are validated and applied. -/
def loadEffectSettings (videoUrl : String) (s : PlayerState) : PlayerState :=
  if s.hlsSupported && !(videoUrl == "") && strEndsWith videoUrl ".m3u8" then
    s
  else
    match s.store with
    | none => s
    | some parsed =>
      let s := match parsed.volume with
               | some q => if 0 ≤ q ∧ q ≤ 1 then { s with volume := q } else s
               | none => s
      let s := match parsed.playbackRate with
               | some r => if 0 < r then { s with playbackRate := r } else s
               | none => s
      match parsed.activeSubtitle with
      | some l => { s with activeSubtitle := l }
      | none => s

/-! ## Quality switching -/

/-- JavaScript list indexing `qualityList[idx]` for a possibly negative
index: out of range (including the `-1` sentinel) yields undefined. -/
def listGetI (l : List QualityOpt) (i : ℤ) : Option QualityOpt :=
  if i < 0 then none else l.get? i.toNat

/-- `handleQualitySwitch` (lines 268-299): with an engine attached and
supported, delegate to `hls.currentLevel` (media element untouched; `-1`
means automatic); otherwise capture time and play state, swap the source
URL when it differs, restore the time and resume when it was playing.
Both branches record the selected index and close the menu. -/
def handleQualitySwitch (idx : ℤ) (s : PlayerState) : PlayerState :=
  match s.media with
  | none => s
  | some v =>
    let captured := v.currentTime
    let wasPlaying := !v.paused
    let s :=
      if s.hls.isSome && s.hlsSupported then
        { s with hls := s.hls.map (fun h => { h with currentLevel := idx }) }
      else
        match listGetI s.qualityList idx with
        | some quality =>
          if quality.url ≠ v.src then
            -- assigning `v.src` swaps the source; the handler then restores
            -- `currentTime` and calls `play()` when it was playing
            { s with media := some { v with src := quality.url,
                                            currentTime := captured,
                                            paused := if wasPlaying then false else v.paused } }
          else s
        | none => s
    let s := { s with selectedQualityIndex := idx }
    closeMenu s

/-! ## HLS error handling -/

/-- Error classes of `Hls.ErrorTypes` the handler distinguishes. -/
inductive HlsErrType where
  | networkError : HlsErrType
  | mediaError : HlsErrType
  | otherError : HlsErrType
deriving DecidableEq

/-- The payload of an `Hls.Events.ERROR` callback. -/
structure HlsErrData where
  fatal : Bool
  errType : HlsErrType
deriving DecidableEq

/-- The `Hls.Events.ERROR` handler (lines 641-700).  Non-fatal: set a soft
notice by class and schedule an anonymous 4000ms clear timeout.  Fatal
network: `hls.startLoad()`; fatal media: `hls.recoverMediaError()`;
anything else fatal: persistent message, stop loading, `hls.destroy()`. -/
def handleHlsError (d : HlsErrData) (s : PlayerState) : PlayerState :=
  match s.hls with
  | none => s
  | some h =>
    if !d.fatal then
      let msg := match d.errType with
                 | .networkError => "Network issue — attempting to reconnect..."
                 | .mediaError => "Playback hiccup — trying to recover..."
                 | .otherError => "Encountered a recoverable error..."
      let s := { s with errorMessage := some msg }
      let r := s.ts.setT .softError 4000
      { s with ts := r.2 }
    else
      match d.errType with
      | .networkError =>
        { s with errorMessage := some "Network error — retrying...",
                 hls := some { h with startLoadCalled := true } }
      | .mediaError =>
        { s with errorMessage := some "Playback error — attempting media recovery...",
                 hls := some { h with recoverCalled := true } }
      | .otherError =>
        { s with errorMessage := some "Playback error. Please reload or try a different title.",
                 loading := false,
                 hls := some { h with destroyed := true } }

/-- The body of the 4000ms soft-notice clear (lines 657-661):
`setErrorMessage((cur) => cur && cur.includes("attempting") ? null : cur)`. -/
def softErrorClear (msg : Option String) : Option String :=
  match msg with
  | some cur => if strIncludes cur "attempting" then none else some cur
  | none => none

/-! ## Keyboard seeking -/

/-- The `ArrowRight` case of `onKey` (lines 1120-1125): guarded by
`v.duration && isFinite(v.duration)`, seek to `min(duration, t + 5)`. -/
def onKeyArrowRight (s : PlayerState) : PlayerState :=
  match s.media with
  | none => s
  | some v =>
    if v.duration.truthy && v.duration.isFinite then
      { s with media := some { v with currentTime := min v.duration.val (v.currentTime + 5) } }
    else s

/-- The `ArrowLeft` case of `onKey` (lines 1127-1132): guarded identically,
seek to `max(0, t - 5)`. -/
def onKeyArrowLeft (s : PlayerState) : PlayerState :=
  match s.media with
  | none => s
  | some v =>
    if v.duration.truthy && v.duration.isFinite then
      { s with media := some { v with currentTime := max 0 (v.currentTime - 5) } }
    else s

/-! ## Accessors used by the theorems -/

/-- The media element's current time, when the element exists. -/
def mediaTime (s : PlayerState) : Option ℚ := s.media.map (fun v => v.currentTime)

/-- The media element's paused flag, when the element exists. -/
def mediaPaused (s : PlayerState) : Option Bool := s.media.map (fun v => v.paused)

/-- The media element's volume, when the element exists. -/
def mediaVolume (s : PlayerState) : Option ℚ := s.media.map (fun v => v.volume)

/-- The media element's muted flag, when the element exists. -/
def mediaMuted (s : PlayerState) : Option Bool := s.media.map (fun v => v.muted)

/-- The media element's text tracks, when the element exists. -/
def mediaTracks (s : PlayerState) : Option (List TextTrack) := s.media.map (fun v => v.textTracks)

/-- The stored record, as the handlers read it (`raw ? JSON.parse(raw) : {}`). -/
def storeOf (s : PlayerState) : PersistedRecord := s.store.getD .empty

/-- Number of tracks in showing mode. -/
def countShowing (tracks : List TextTrack) : ℕ :=
  tracks.countP (fun t => decide (t.mode = TrackMode.showing))

/-! ## Concrete fixtures for witnesses and counterexamples -/

/-- A native (non-adaptive) media element positioned mid-playback. -/
def mediaA : MediaEl :=
  ⟨"movie.mp4", 50, .fin 200, true, 1, false, 1, []⟩

/-- A player state holding `mediaA`, no engine, empty storage. -/
def stateA : PlayerState := initState (some mediaA) false none [] []

/-- A media element matching the spec scenario `duration = 596`,
`currentTime = 590`. -/
def media596 : MediaEl :=
  ⟨"movie.mp4", 590, .fin 596, false, 1, false, 1, []⟩

/-- A player state holding `media596`. -/
def state596 : PlayerState := initState (some media596) false none [] []

/-- A playing media element for the quality-switch witness. -/
def mediaQ : MediaEl :=
  ⟨"movie_720.mp4", 50, .fin 200, false, 1, false, 1, []⟩

/-- A native player state with one quality option, a playing element. -/
def stateQ : PlayerState :=
  initState (some mediaQ) false none [] [⟨"1080p", "movie_1080.mp4"⟩]

/-! ## Theorems -/

/-- C2: for every numeric input `val`, `handleVolumeChange` stores
`clampC val 0 1` in session state and on the media element, and afterwards
the muted flag (both in session state and on the element) is true iff the
stored volume equals 0. -/
theorem c2_volume_clamp (val : ℚ) (s : PlayerState) (v : MediaEl)
    (hm : s.media = some v) :
    (handleVolumeChange val s).volume = clampC val 0 1 ∧
    mediaVolume (handleVolumeChange val s) = some (clampC val 0 1) ∧
    ((handleVolumeChange val s).isMuted = true ↔ (handleVolumeChange val s).volume = 0) ∧
    (mediaMuted (handleVolumeChange val s) = some true ↔ (handleVolumeChange val s).volume = 0) := by
  simp [handleVolumeChange, hm, mediaVolume, mediaMuted, showVolOverlay]

/-- Witness for C2: the handler applied to a concrete over-range input on a
concrete state. -/
theorem c2_volume_clamp_witness :
    (handleVolumeChange 3 stateA).volume = clampC 3 0 1 ∧
    mediaVolume (handleVolumeChange 3 stateA) = some (clampC 3 0 1) ∧
    ((handleVolumeChange 3 stateA).isMuted = true ↔ (handleVolumeChange 3 stateA).volume = 0) ∧
    (mediaMuted (handleVolumeChange 3 stateA) = some true ↔ (handleVolumeChange 3 stateA).volume = 0) :=
  c2_volume_clamp 3 stateA mediaA rfl

/-- C6: on `timeupdate`, with a finite positive duration `d` and
`0 ≤ currentTime ≤ d`, the derived `progressPercent` equals
`clamp(currentTime/d*100, 0, 100)`; and whenever the duration is NaN,
infinite, zero or negative, `progressPercent` is left untouched. -/
theorem c6_progress_guarded (s : PlayerState) (v : MediaEl) (d : ℚ)
    (hm : s.media = some v) (hd : v.duration = .fin d) (h0 : 0 < d)
    (ht0 : 0 ≤ v.currentTime) (htd : v.currentTime ≤ d) :
    (onTime s).progressPercent = clamp (v.currentTime / d * 100) 0 100 ∧
    (∀ (s2 : PlayerState) (v2 : MediaEl), s2.media = some v2 →
      (∀ q : ℚ, v2.duration = .fin q → q ≤ 0) →
      (onTime s2).progressPercent = s2.progressPercent) := by
  constructor
  · have hx0 : 0 ≤ v.currentTime / d * 100 := by positivity
    have hx1 : v.currentTime / d * 100 ≤ 100 := by
      have hle : v.currentTime / d ≤ 1 := (div_le_one h0).mpr htd
      nlinarith
    have hne : d ≠ 0 := ne_of_gt h0
    simp [onTime, hm, hd, JSNum.truthy, JSNum.gtZero, JSNum.isFinite, JSNum.val, hne, h0,
      clamp, min_eq_right hx1, max_eq_right hx0]
  · intro s2 v2 hm2 hq
    cases hdur : v2.duration with
    | nan => simp [onTime, hm2, hdur, JSNum.truthy]
    | inf => simp [onTime, hm2, hdur, JSNum.isFinite]
    | fin q =>
      have hq0 : q ≤ 0 := hq q hdur
      have : ¬(0 < q) := not_lt.mpr hq0
      simp [onTime, hm2, hdur, JSNum.truthy, JSNum.gtZero, JSNum.isFinite, this]

/-- Witness for C6: a concrete state at `currentTime = 50` of a 200s video. -/
theorem c6_progress_guarded_witness :
    (onTime stateA).progressPercent = clamp ((50 : ℚ) / 200 * 100) 0 100 ∧
    (∀ (s2 : PlayerState) (v2 : MediaEl), s2.media = some v2 →
      (∀ q : ℚ, v2.duration = .fin q → q ≤ 0) →
      (onTime s2).progressPercent = s2.progressPercent) :=
  c6_progress_guarded stateA mediaA 200 rfl rfl (by norm_num) (by norm_num [mediaA]) (by norm_num [mediaA])

/-- C8: with a known finite duration `d` and `0 ≤ currentTime ≤ d`,
ArrowRight seeks to `min d (currentTime + 5)` and ArrowLeft to
`max 0 (currentTime - 5)`. -/
theorem c8_arrow_seek (s : PlayerState) (v : MediaEl) (d : ℚ)
    (hm : s.media = some v) (hd : v.duration = .fin d)
    (ht0 : 0 ≤ v.currentTime) (htd : v.currentTime ≤ d) :
    mediaTime (onKeyArrowRight s) = some (min d (v.currentTime + 5)) ∧
    mediaTime (onKeyArrowLeft s) = some (max 0 (v.currentTime - 5)) := by
  by_cases hd0 : d = 0
  · have ht : v.currentTime = 0 := le_antisymm (hd0 ▸ htd) ht0
    subst hd0
    constructor
    · have : min (0 : ℚ) (v.currentTime + 5) = 0 := by rw [ht]; norm_num
      simp [onKeyArrowRight, hm, hd, JSNum.truthy, mediaTime, this, ht]
    · have : max (0 : ℚ) (v.currentTime - 5) = 0 := by rw [ht]; norm_num
      simp [onKeyArrowLeft, hm, hd, JSNum.truthy, mediaTime, this, ht]
  · simp [onKeyArrowRight, onKeyArrowLeft, hm, hd, JSNum.truthy, JSNum.isFinite, JSNum.val,
      hd0, mediaTime]

/-- Witness for C8: the spec scenario `duration = 596`, ArrowRight at
`currentTime = 590` lands on 595 (no overflow), ArrowLeft on 585. -/
theorem c8_arrow_seek_witness :
    mediaTime (onKeyArrowRight state596) = some 595 ∧
    mediaTime (onKeyArrowLeft state596) = some 585 := by
  have h := c8_arrow_seek state596 media596 596 rfl rfl (by norm_num [media596]) (by norm_num [media596])
  have h1 : min (596 : ℚ) (590 + 5) = 595 := by norm_num
  have h2 : max (0 : ℚ) (590 - 5) = 585 := by norm_num
  exact ⟨h1 ▸ h.1, h2 ▸ h.2⟩

/-- C10: each persistence write reads the stored record, merges only its
own field and writes it back: changing the volume leaves the stored
playback rate and subtitle unchanged, and symmetrically for the playback
rate and subtitle handlers. -/
theorem c10_persistence_frame (val r : ℚ) (lang : Option String) (s : PlayerState) :
    (storeOf (handleVolumeChange val s)).playbackRate = (storeOf s).playbackRate ∧
    (storeOf (handleVolumeChange val s)).activeSubtitle = (storeOf s).activeSubtitle ∧
    (storeOf (handlePlaybackRateChange r s)).volume = (storeOf s).volume ∧
    (storeOf (handlePlaybackRateChange r s)).activeSubtitle = (storeOf s).activeSubtitle ∧
    (storeOf (handleSubtitleChange lang s)).volume = (storeOf s).volume ∧
    (storeOf (handleSubtitleChange lang s)).playbackRate = (storeOf s).playbackRate := by
  refine ⟨?_, ?_, ?_, ?_, ?_, ?_⟩ <;>
    cases hm : s.media <;>
    by_cases hr : r ≤ 0 <;>
    simp [handleVolumeChange, handlePlaybackRateChange, handleSubtitleChange,
      showVolOverlay, showLanguageOverlay, closeMenu, storeOf, hm, hr]

/-- C3: switching quality preserves the playback position and the play
state: the media element's `currentTime` and `paused` flags are unchanged,
the selected index is recorded, and with a supported engine attached the
switch delegates to the engine's `currentLevel` (with `-1` meaning
automatic selection). -/
theorem c3_quality_preserves (idx : ℤ) (s : PlayerState) (v : MediaEl)
    (hm : s.media = some v) :
    mediaTime (handleQualitySwitch idx s) = some v.currentTime ∧
    mediaPaused (handleQualitySwitch idx s) = some v.paused ∧
    (handleQualitySwitch idx s).selectedQualityIndex = idx ∧
    (∀ h : HlsState, s.hls = some h → s.hlsSupported = true →
      (handleQualitySwitch idx s).hls = some { h with currentLevel := idx }) := by
  by_cases hhls : s.hls.isSome && s.hlsSupported
  · refine ⟨?_, ?_, ?_, ?_⟩ <;>
      simp [handleQualitySwitch, closeMenu, mediaTime, mediaPaused, hm, hhls]
    intro h hh _
    simp [hh]
  · have hside : ∀ h : HlsState, s.hls = some h → s.hlsSupported = true → False := by
      intro h hh hsup
      simp [hh, hsup] at hhls
    refine ⟨?_, ?_, ?_, fun h hh hsup => absurd trivial (fun _ => hside h hh hsup)⟩ <;>
      cases hq : listGetI s.qualityList idx with
      | none => simp [handleQualitySwitch, closeMenu, mediaTime, mediaPaused, hm, hhls, hq]
      | some quality =>
        by_cases hurl : quality.url ≠ v.src <;>
          cases hp : v.paused <;>
            simp [handleQualitySwitch, closeMenu, mediaTime, mediaPaused, hm, hhls, hq, hurl, hp]

/-- Witness for C3: a concrete native switch to index 0 while playing at
`t = 50` keeps `t = 50` and the playing state. -/
theorem c3_quality_preserves_witness :
    mediaTime (handleQualitySwitch 0 stateQ) = some 50 ∧
    mediaPaused (handleQualitySwitch 0 stateQ) = some false ∧
    (handleQualitySwitch 0 stateQ).selectedQualityIndex = 0 ∧
    (∀ h : HlsState, stateQ.hls = some h → stateQ.hlsSupported = true →
      (handleQualitySwitch 0 stateQ).hls = some { h with currentLevel := 0 }) :=
  c3_quality_preserves 0 stateQ mediaQ rfl

/-! ## Subtitle switch lemmas (C7) -/

/-- The mode assignment of the subtitle switch is idempotent: a second pass
with the same language reproduces the same modes, since the assignment
only reads the language/label key, never the previous mode. -/
lemma applySubtitleModes_idem (lang : Option String) (tracks : List TextTrack) :
    applySubtitleModes lang (applySubtitleModes lang tracks) =
      applySubtitleModes lang tracks := by
  unfold applySubtitleModes
  rw [List.map_map]
  refine List.map_congr_left ?_
  intro t _
  by_cases hc : trackLangOf t = lang.getD "" <;> simp [Function.comp, hc, trackLangOf]

/-- A null language hides every track whose language/label key is
non-empty. -/
lemma applySubtitleModes_none_hidden {tracks : List TextTrack} {u : TextTrack}
    (hu : u ∈ applySubtitleModes none tracks)
    (hne : trackLangOf u ≠ "") : u.mode = TrackMode.hidden := by
  unfold applySubtitleModes at hu
  rcases List.mem_map.mp hu with ⟨t, _, rfl⟩
  have hkey : trackLangOf t ≠ "" := hne
  simp [hkey]

/-- After the mode assignment, a track is showing iff its language key
matches the requested language (empty string for null). -/
lemma mode_mem_applySubtitleModes {lang : Option String} {tracks : List TextTrack}
    {u : TextTrack} (hu : u ∈ applySubtitleModes lang tracks) :
    u.mode = TrackMode.showing ↔ trackLangOf u = lang.getD "" := by
  unfold applySubtitleModes at hu
  rcases List.mem_map.mp hu with ⟨t, _, rfl⟩
  by_cases hc : trackLangOf t = lang.getD "" <;> simp [hc, trackLangOf, jsOr]

/-- The number of showing tracks after the assignment equals the number of
tracks whose language key matches the requested language. -/
lemma countShowing_applySubtitleModes (lang : Option String) (tracks : List TextTrack) :
    countShowing (applySubtitleModes lang tracks) =
      tracks.countP (fun t => decide (trackLangOf t = lang.getD "")) := by
  unfold countShowing applySubtitleModes
  rw [List.countP_map]
  induction tracks with
  | nil => rfl
  | cons t rest ih =>
    rw [List.countP_cons, List.countP_cons, ih]
    by_cases hc : trackLangOf t = lang.getD "" <;> simp [Function.comp, hc]

/-- A media element with two distinct-language tracks. -/
def mediaSubs : MediaEl :=
  ⟨"movie.mp4", 0, .fin 100, true, 1, false, 1,
   [⟨"en", "English", .disabled⟩, ⟨"es", "Spanish", .disabled⟩]⟩

/-- A player state holding `mediaSubs`. -/
def stateSubs : PlayerState := initState (some mediaSubs) false none [] []

/-- A media element with two English tracks, exercising the duplicate-key
case of the subtitle switch. -/
def mediaDup : MediaEl :=
  ⟨"movie.mp4", 0, .fin 100, true, 1, false, 1,
   [⟨"en", "English", .disabled⟩, ⟨"en", "English 2", .disabled⟩]⟩

/-- A player state holding `mediaDup`. -/
def stateDup : PlayerState := initState (some mediaDup) false none [] []

/-- Counterexample to C7 as stated: with two tracks advertising the same
language, switching to that language (twice) leaves TWO tracks in showing
mode, not a single active track. -/
theorem c7_counterexample :
    (mediaTracks (handleSubtitleChange (some "en")
        (handleSubtitleChange (some "en") stateDup))).map countShowing = some 2 ∧
    ¬ ((2 : ℕ) ≤ 1) := by
  refine ⟨by decide, by decide⟩

/-- C7 amended: the subtitle switch is idempotent — a second call with the
same language yields the same track modes as the first; a track ends up
showing iff its language/label key equals the requested language (empty for
null), so there is at most one showing track whenever at most one track
matches the key, and a null language hides every track whose key is
non-empty.  (With duplicate track languages, several tracks can be showing
at once; a track with an empty language and label is set to showing by a
null switch.) -/
theorem c7_subtitle_idem (lang : Option String) (s : PlayerState) (v : MediaEl)
    (hm : s.media = some v) :
    mediaTracks (handleSubtitleChange lang (handleSubtitleChange lang s)) =
      mediaTracks (handleSubtitleChange lang s) ∧
    (∀ u ∈ applySubtitleModes lang v.textTracks,
      (u.mode = TrackMode.showing ↔ trackLangOf u = lang.getD "")) ∧
    (v.textTracks.countP (fun t => decide (trackLangOf t = lang.getD "")) ≤ 1 →
      countShowing (applySubtitleModes lang v.textTracks) ≤ 1) ∧
    (lang = none → ∀ u ∈ applySubtitleModes lang v.textTracks,
      trackLangOf u ≠ "" → u.mode = TrackMode.hidden) := by
  refine ⟨?_, ?_, ?_, ?_⟩
  · simp [handleSubtitleChange, showLanguageOverlay, closeMenu, mediaTracks, hm,
      applySubtitleModes_idem]
  · intro u hu
    exact mode_mem_applySubtitleModes hu
  · intro hle
    rw [countShowing_applySubtitleModes]
    exact hle
  · intro hnone u hu hne
    subst hnone
    exact applySubtitleModes_none_hidden hu hne

/-- Witness for C7 amended: a concrete two-track list with distinct
languages. -/
theorem c7_subtitle_idem_witness :
    mediaTracks (handleSubtitleChange (some "en")
        (handleSubtitleChange (some "en") stateSubs)) =
      mediaTracks (handleSubtitleChange (some "en") stateSubs) ∧
    (∀ u ∈ applySubtitleModes (some "en") mediaSubs.textTracks,
      (u.mode = TrackMode.showing ↔ trackLangOf u = (some "en").getD "")) ∧
    (mediaSubs.textTracks.countP
        (fun t => decide (trackLangOf t = (some "en").getD "")) ≤ 1 →
      countShowing (applySubtitleModes (some "en") mediaSubs.textTracks) ≤ 1) ∧
    ((some "en") = none → ∀ u ∈ applySubtitleModes (some "en") mediaSubs.textTracks,
      trackLangOf u ≠ "" → u.mode = TrackMode.hidden) :=
  c7_subtitle_idem (some "en") stateSubs mediaSubs rfl

/-! ## Preference round-trip lemmas (C4) -/

/-- The volume handler always writes the clamped value into the stored
record, merging with whatever was there. -/
lemma handleVolumeChange_store (val : ℚ) (s : PlayerState) :
    (handleVolumeChange val s).store =
      some { s.store.getD .empty with volume := some (clampC val 0 1) } := by
  cases hm : s.media <;> simp [handleVolumeChange, showVolOverlay, hm]

/-- When the load effect does reach the settings read (non-adaptive
branch) and the stored volume is a number within bounds, it is restored. -/
lemma loadEffectSettings_volume (url : String) (s : PlayerState)
    (parsed : PersistedRecord) (q : ℚ)
    (hguard : (s.hlsSupported && !(url == "") && strEndsWith url ".m3u8") = false)
    (hstore : s.store = some parsed) (hq : parsed.volume = some q)
    (h0 : 0 ≤ q) (h1 : q ≤ 1) :
    (loadEffectSettings url s).volume = q := by
  unfold loadEffectSettings
  rw [hguard]
  simp only [Bool.false_eq_true, if_false, hstore, hq]
  rw [if_pos ⟨h0, h1⟩]
  cases hpr : parsed.playbackRate with
  | none =>
    cases hsub : parsed.activeSubtitle <;> simp
  | some r =>
    by_cases hr : 0 < r <;>
      cases hsub : parsed.activeSubtitle <;> simp [hr]

/-- Counterexample to C4 as stated: write volume 0.42, then create a fresh
session for an adaptive source (engine supported, URL ending in `.m3u8`).
The load effect returns from the HLS branch before the `localStorage` read
(line 703 precedes line 722), so the restored volume is the default 1,
not 0.42. -/
theorem c4_counterexample :
    (loadEffectSettings "movie.m3u8"
      (initState none true (handleVolumeChange (21 / 50) stateA).store [] [])).volume = 1 ∧
    (1 : ℚ) ≠ 21 / 50 := by
  constructor
  · rfl
  · norm_num

/-- C4 amended: the round trip holds for every non-adaptive fresh session:
writing volume `v ∈ [0,1]` with the volume handler and reloading a fresh
session for the same content id over a store whose URL does not select the
HLS branch restores volume `v`. -/
theorem c4_roundtrip (vq : ℚ) (s : PlayerState) (url : String)
    (media2 : Option MediaEl) (hlsSup : Bool) (subs : List SubtitleTrack)
    (quals : List QualityOpt)
    (hv0 : 0 ≤ vq) (hv1 : vq ≤ 1)
    (hnative : (hlsSup && !(url == "") && strEndsWith url ".m3u8") = false) :
    (loadEffectSettings url
      (initState media2 hlsSup (handleVolumeChange vq s).store subs quals)).volume = vq := by
  have hcl : clampC vq 0 1 = vq := by
    unfold clampC
    rw [max_eq_left hv0, min_eq_left hv1]
  refine loadEffectSettings_volume url _ { s.store.getD .empty with volume := some vq } vq
    hnative ?_ rfl hv0 hv1
  show (handleVolumeChange vq s).store = _
  rw [handleVolumeChange_store, hcl]

/-- Witness for C4 amended: volume 0.42 round-trips through a native
session. -/
theorem c4_roundtrip_witness :
    (loadEffectSettings "movie.mp4"
      (initState none false (handleVolumeChange (21 / 50) stateA).store [] [])).volume
      = 21 / 50 :=
  c4_roundtrip (21 / 50) stateA "movie.mp4" none false [] []
    (by norm_num) (by norm_num) (by decide)

/-! ## HLS error handling (C5) -/

/-- A player state with an attached engine. -/
def stateHls : PlayerState :=
  { initStateB with hls := some ⟨-1, false, false, false⟩ }

/-- Counterexample to C5 as stated: after a non-fatal media-class error the
soft notice is "Playback hiccup — trying to recover...", which does not
contain "attempting", so the scheduled 4-second clear callback leaves it in
place — the notice is not auto-expiring. -/
theorem c5_counterexample :
    softErrorClear (handleHlsError ⟨false, .mediaError⟩ stateHls).errorMessage =
      some "Playback hiccup — trying to recover..." ∧
    (some "Playback hiccup — trying to recover..." ≠ (none : Option String)) := by
  refine ⟨by decide, by decide⟩

/-- C5 amended: fatal network-class errors invoke the engine's
`startLoad`; fatal media-class errors invoke `recoverMediaError`; fatal
unclassified errors destroy the engine and set a persistent message with
no clear timeout scheduled; non-fatal errors leave the engine untouched,
schedule one 4-second clear timeout and set a soft notice — but the clear
callback only removes messages containing "attempting", so only the
network-class notice auto-expires, while the media-class notice survives
the callback. -/
theorem c5_error_taxonomy (s : PlayerState) (h : HlsState) (hh : s.hls = some h) :
    (handleHlsError ⟨true, .networkError⟩ s).hls = some { h with startLoadCalled := true } ∧
    (handleHlsError ⟨true, .mediaError⟩ s).hls = some { h with recoverCalled := true } ∧
    ((handleHlsError ⟨true, .otherError⟩ s).hls = some { h with destroyed := true } ∧
      (handleHlsError ⟨true, .otherError⟩ s).errorMessage =
        some "Playback error. Please reload or try a different title." ∧
      (handleHlsError ⟨true, .otherError⟩ s).ts.pending = s.ts.pending) ∧
    (∀ e : HlsErrType, (handleHlsError ⟨false, e⟩ s).hls = some h ∧
      (handleHlsError ⟨false, e⟩ s).ts.pending =
        s.ts.pending ++ [⟨s.ts.nextId, .softError, s.ts.now + 4000⟩]) ∧
    softErrorClear (handleHlsError ⟨false, .networkError⟩ s).errorMessage = none ∧
    softErrorClear (handleHlsError ⟨false, .mediaError⟩ s).errorMessage =
      (handleHlsError ⟨false, .mediaError⟩ s).errorMessage := by
  refine ⟨?_, ?_, ⟨?_, ?_, ?_⟩, ?_, ?_, ?_⟩
  · simp [handleHlsError, hh]
  · simp [handleHlsError, hh]
  · simp [handleHlsError, hh]
  · simp [handleHlsError, hh]
  · simp [handleHlsError, hh]
  · intro e
    cases e <;> simp [handleHlsError, hh, TimerSys.setT]
  · have : strIncludes "Network issue — attempting to reconnect..." "attempting" = true := by
      decide
    simp [handleHlsError, hh, softErrorClear, this]
  · have : strIncludes "Playback hiccup — trying to recover..." "attempting" = false := by
      decide
    simp [handleHlsError, hh, softErrorClear, this]

/-- Witness for C5 amended: the taxonomy applied to a concrete attached
engine. -/
theorem c5_error_taxonomy_witness :
    (handleHlsError ⟨true, .networkError⟩ stateHls).hls =
      some { (⟨-1, false, false, false⟩ : HlsState) with startLoadCalled := true } ∧
    (handleHlsError ⟨true, .mediaError⟩ stateHls).hls =
      some { (⟨-1, false, false, false⟩ : HlsState) with recoverCalled := true } ∧
    ((handleHlsError ⟨true, .otherError⟩ stateHls).hls =
        some { (⟨-1, false, false, false⟩ : HlsState) with destroyed := true } ∧
      (handleHlsError ⟨true, .otherError⟩ stateHls).errorMessage =
        some "Playback error. Please reload or try a different title." ∧
      (handleHlsError ⟨true, .otherError⟩ stateHls).ts.pending = stateHls.ts.pending) ∧
    (∀ e : HlsErrType, (handleHlsError ⟨false, e⟩ stateHls).hls =
        some ⟨-1, false, false, false⟩ ∧
      (handleHlsError ⟨false, e⟩ stateHls).ts.pending =
        stateHls.ts.pending ++ [⟨stateHls.ts.nextId, .softError, stateHls.ts.now + 4000⟩]) ∧
    softErrorClear (handleHlsError ⟨false, .networkError⟩ stateHls).errorMessage = none ∧
    softErrorClear (handleHlsError ⟨false, .mediaError⟩ stateHls).errorMessage =
      (handleHlsError ⟨false, .mediaError⟩ stateHls).errorMessage :=
  c5_error_taxonomy stateHls ⟨-1, false, false, false⟩ rfl

/-! ## Timer exclusivity (C1) -/

/-- Counterexample to C1 as stated: the language HUD is one of the listed
overlay kinds, yet `showLanguageOverlay` never clears the previous timeout
(its handle is discarded), so two rapid triggers leave TWO overlapping
pending timeouts for that kind. -/
theorem c1_counterexample :
    (pendingOfKind .langHud
      (showLanguageOverlay .audioKind "Spanish"
        (advance 100 (showLanguageOverlay .audioKind "English" initStateB)))).length = 2 ∧
    ¬ ((2 : ℕ) ≤ 1) := by
  refine ⟨by decide, by decide⟩

/-- C1 amended: the flash, cursor, volume-HUD and controls-visibility
triggers do cancel-and-replace — triggering any of them a second time
while its timeout is pending leaves exactly one pending timeout for the
kind, expiring the kind's delay after the second trigger's time.  (The
language HUD instead stacks an additional timeout, and the paused-info
timer is armed only when none is pending.) -/
theorem c1_cancel_replace (v1 v2 : ℚ) (f1 f2 : FlashKind)
    (x1 y1 x2 y2 : ℚ) (t0 d : ℕ) :
    ((pendingOfKind .volHud
        (showVolOverlay v2 (advance d (showVolOverlay v1 (advance t0 initStateB))))).map
      PendingTimer.expiresAt =
      [(advance d (showVolOverlay v1 (advance t0 initStateB))).ts.now + OVERLAY_DURATION]) ∧
    ((pendingOfKind .flash
        (triggerFlash f2 (advance d (triggerFlash f1 (advance t0 initStateB))))).map
      PendingTimer.expiresAt =
      [(advance d (triggerFlash f1 (advance t0 initStateB))).ts.now + OVERLAY_DURATION]) ∧
    ((pendingOfKind .cursor
        (showCursorTransient x2 y2
          (advance d (showCursorTransient x1 y1 (advance t0 initStateB))))).map
      PendingTimer.expiresAt =
      [(advance d (showCursorTransient x1 y1 (advance t0 initStateB))).ts.now + 800]) ∧
    ((pendingOfKind .controls
        (showControlsTemporarily (advance d (showControlsTemporarily (advance t0 initStateB))))).map
      PendingTimer.expiresAt =
      [(advance d (showControlsTemporarily (advance t0 initStateB))).ts.now + CONTROLS_HIDE_MS]) := by
  refine ⟨rfl, rfl, rfl, rfl⟩

/-! ## Teardown (C9) -/

/-- Handle-counter of a timer system is unchanged by a clear. -/
lemma clearT_nextId (ts : TimerSys) (h : Option ℕ) : (ts.clearT h).nextId = ts.nextId := by
  cases h <;> rfl

/-- Clock of a timer system is unchanged by a clear. -/
lemma clearT_now (ts : TimerSys) (h : Option ℕ) : (ts.clearT h).now = ts.now := by
  cases h <;> rfl

/-- A timer surviving a clear was pending before and does not carry the
cleared handle. -/
lemma mem_pending_clearT {ts : TimerSys} {h : Option ℕ} {t : PendingTimer}
    (hm : t ∈ (ts.clearT h).pending) :
    t ∈ ts.pending ∧ ∀ i, h = some i → t.id ≠ i := by
  cases h with
  | none => exact ⟨hm, by intro i hi; cases hi⟩
  | some i =>
    rw [TimerSys.clearT, List.mem_filter, decide_eq_true_eq] at hm
    refine ⟨hm.1, ?_⟩
    intro j hj
    injection hj with e
    subst e
    exact hm.2

/-- The ref that owns a given overlay kind, when one exists; the anonymous
kinds (language HUD, menu fade, soft error) have no owning ref. -/
def refOfKind (s : PlayerState) : TimerKind → Option ℕ
  | .controls => s.controlsTimeout
  | .cursor => s.cursorTimeout
  | .flash => s.flashTimeout
  | .volHud => s.volOverlayTimeout
  | .pausedInfo => s.pausedInfoTimeout
  | .mouseMove => s.mouseMoveTimer
  | .ripple => s.rippleTimeout
  | .langHud => none
  | .menuFade => none
  | .softError => none

/-- Every pending timeout is owned by the ref of its kind.  This is the
state of affairs produced by the ref-managed triggers (controls, cursor,
flash, volume HUD, paused info, mouse move, ripple); the anonymous
timeouts fall outside it. -/
def refHeld (s : PlayerState) : Prop :=
  ∀ t ∈ s.ts.pending, refOfKind s t.kind = some t.id

/-- The teardown chains the seven ref clears over the timer system. -/
lemma unmountCleanup_ts (s : PlayerState) :
    (unmountCleanup s).ts =
      ((((((s.ts.clearT s.rippleTimeout).clearT s.pausedInfoTimeout).clearT
        s.mouseMoveTimer).clearT s.controlsTimeout).clearT s.cursorTimeout).clearT
        s.flashTimeout).clearT s.volOverlayTimeout := rfl

/-- On a ref-held state the teardown leaves no pending timeout at all. -/
lemma unmountCleanup_pending_nil {s : PlayerState} (hI : refHeld s) :
    (unmountCleanup s).ts.pending = [] := by
  rw [unmountCleanup_ts, List.eq_nil_iff_forall_not_mem]
  intro t ht
  obtain ⟨ht, hVol⟩ := mem_pending_clearT ht
  obtain ⟨ht, hFlash⟩ := mem_pending_clearT ht
  obtain ⟨ht, hCursor⟩ := mem_pending_clearT ht
  obtain ⟨ht, hControls⟩ := mem_pending_clearT ht
  obtain ⟨ht, hMouse⟩ := mem_pending_clearT ht
  obtain ⟨ht, hPaused⟩ := mem_pending_clearT ht
  obtain ⟨ht, hRipple⟩ := mem_pending_clearT ht
  have hk := hI t ht
  cases hkind : t.kind <;> rw [hkind] at hk <;> simp only [refOfKind] at hk <;>
    first
      | exact hControls t.id hk rfl
      | exact hCursor t.id hk rfl
      | exact hFlash t.id hk rfl
      | exact hVol t.id hk rfl
      | exact hPaused t.id hk rfl
      | exact hMouse t.id hk rfl
      | exact hRipple t.id hk rfl
      | exact Option.noConfusion hk

/-- Clearing the mouse-move ref (and nulling it) keeps the state ref-held. -/
lemma refHeld_clear_mouseMove {s : PlayerState} (hI : refHeld s) :
    refHeld { s with ts := s.ts.clearT s.mouseMoveTimer, mouseMoveTimer := none } := by
  intro t ht
  obtain ⟨hmem, hni⟩ := mem_pending_clearT ht
  have hk := hI t hmem
  cases hkind : t.kind <;> rw [hkind] at hk <;> simp only [refOfKind] at hk ⊢ <;>
    first
      | exact hk
      | exact absurd rfl (hni t.id hk)
      | exact Option.noConfusion hk

/-- Clearing the paused-info ref (and nulling it) keeps the state ref-held. -/
lemma refHeld_clear_pausedInfo {s : PlayerState} (hI : refHeld s) :
    refHeld { s with ts := s.ts.clearT s.pausedInfoTimeout, pausedInfoTimeout := none } := by
  intro t ht
  obtain ⟨hmem, hni⟩ := mem_pending_clearT ht
  have hk := hI t hmem
  cases hkind : t.kind <;> rw [hkind] at hk <;> simp only [refOfKind] at hk ⊢ <;>
    first
      | exact hk
      | exact absurd rfl (hni t.id hk)
      | exact Option.noConfusion hk

/-- The volume-HUD trigger keeps the state ref-held. -/
lemma refHeld_showVolOverlay {s : PlayerState} (v : ℚ) (hI : refHeld s) :
    refHeld (showVolOverlay v s) := by
  intro t ht
  have hpend : (showVolOverlay v s).ts.pending =
      (s.ts.clearT s.volOverlayTimeout).pending ++
        [⟨(s.ts.clearT s.volOverlayTimeout).nextId, .volHud,
          (s.ts.clearT s.volOverlayTimeout).now + OVERLAY_DURATION⟩] := rfl
  rw [hpend, List.mem_append, List.mem_singleton] at ht
  rcases ht with ht | rfl
  · obtain ⟨hmem, hni⟩ := mem_pending_clearT ht
    have hk := hI t hmem
    cases hkind : t.kind <;> rw [hkind] at hk <;> simp only [refOfKind] at hk ⊢ <;>
      first
        | exact hk
        | exact absurd rfl (hni t.id hk)
        | exact Option.noConfusion hk
  · rfl

/-- The flash trigger keeps the state ref-held. -/
lemma refHeld_triggerFlash {s : PlayerState} (k : FlashKind) (hI : refHeld s) :
    refHeld (triggerFlash k s) := by
  intro t ht
  have hpend : (triggerFlash k s).ts.pending =
      (s.ts.clearT s.flashTimeout).pending ++
        [⟨(s.ts.clearT s.flashTimeout).nextId, .flash,
          (s.ts.clearT s.flashTimeout).now + OVERLAY_DURATION⟩] := rfl
  rw [hpend, List.mem_append, List.mem_singleton] at ht
  rcases ht with ht | rfl
  · obtain ⟨hmem, hni⟩ := mem_pending_clearT ht
    have hk := hI t hmem
    cases hkind : t.kind <;> rw [hkind] at hk <;> simp only [refOfKind] at hk ⊢ <;>
      first
        | exact hk
        | exact absurd rfl (hni t.id hk)
        | exact Option.noConfusion hk
  · rfl

/-- The cursor trigger keeps the state ref-held. -/
lemma refHeld_showCursorTransient {s : PlayerState} (x y : ℚ) (hI : refHeld s) :
    refHeld (showCursorTransient x y s) := by
  intro t ht
  have hpend : (showCursorTransient x y s).ts.pending =
      (s.ts.clearT s.cursorTimeout).pending ++
        [⟨(s.ts.clearT s.cursorTimeout).nextId, .cursor,
          (s.ts.clearT s.cursorTimeout).now + 800⟩] := rfl
  rw [hpend, List.mem_append, List.mem_singleton] at ht
  rcases ht with ht | rfl
  · obtain ⟨hmem, hni⟩ := mem_pending_clearT ht
    have hk := hI t hmem
    cases hkind : t.kind <;> rw [hkind] at hk <;> simp only [refOfKind] at hk ⊢ <;>
      first
        | exact hk
        | exact absurd rfl (hni t.id hk)
        | exact Option.noConfusion hk
  · rfl

/-- The controls trigger keeps the state ref-held. -/
lemma refHeld_showControlsTemporarily {s : PlayerState} (hI : refHeld s) :
    refHeld (showControlsTemporarily s) := by
  intro t ht
  have hpend : (showControlsTemporarily s).ts.pending =
      (s.ts.clearT s.controlsTimeout).pending ++
        [⟨(s.ts.clearT s.controlsTimeout).nextId, .controls,
          (s.ts.clearT s.controlsTimeout).now + CONTROLS_HIDE_MS⟩] := rfl
  rw [hpend, List.mem_append, List.mem_singleton] at ht
  rcases ht with ht | rfl
  · obtain ⟨hmem, hni⟩ := mem_pending_clearT ht
    have hk := hI t hmem
    cases hkind : t.kind <;> rw [hkind] at hk <;> simp only [refOfKind] at hk ⊢ <;>
      first
        | exact hk
        | exact absurd rfl (hni t.id hk)
        | exact Option.noConfusion hk
  · rfl

/-- The ripple trigger keeps the state ref-held. -/
lemma refHeld_triggerRipple {s : PlayerState} (x y : ℚ) (hI : refHeld s) :
    refHeld (triggerRipple x y s) := by
  intro t ht
  have hpend : (triggerRipple x y s).ts.pending =
      (s.ts.clearT s.rippleTimeout).pending ++
        [⟨(s.ts.clearT s.rippleTimeout).nextId, .ripple,
          (s.ts.clearT s.rippleTimeout).now + 450⟩] := rfl
  rw [hpend, List.mem_append, List.mem_singleton] at ht
  rcases ht with ht | rfl
  · obtain ⟨hmem, hni⟩ := mem_pending_clearT ht
    have hk := hI t hmem
    cases hkind : t.kind <;> rw [hkind] at hk <;> simp only [refOfKind] at hk ⊢ <;>
      first
        | exact hk
        | exact absurd rfl (hni t.id hk)
        | exact Option.noConfusion hk
  · rfl

/-- Arming the mouse-move timer on a state whose mouse-move ref is empty
keeps the state ref-held. -/
lemma refHeld_arm_mouseMove {s : PlayerState} (d : ℕ) (hI : refHeld s)
    (hnone : s.mouseMoveTimer = none) :
    refHeld { s with ts := (s.ts.setT .mouseMove d).2,
                     mouseMoveTimer := some (s.ts.setT .mouseMove d).1 } := by
  intro t ht
  simp only [TimerSys.setT, List.mem_append, List.mem_singleton] at ht
  rcases ht with ht | rfl
  · have hk := hI t ht
    cases hkind : t.kind <;> rw [hkind] at hk <;> simp only [refOfKind] at hk ⊢ <;>
      first
        | exact hk
        | exact Option.noConfusion (hnone ▸ hk)
        | exact Option.noConfusion hk
  · rfl

/-- Arming the paused-info timer on a state whose paused-info ref is empty
keeps the state ref-held. -/
lemma refHeld_arm_pausedInfo {s : PlayerState} (d : ℕ) (hI : refHeld s)
    (hnone : s.pausedInfoTimeout = none) :
    refHeld { s with ts := (s.ts.setT .pausedInfo d).2,
                     pausedInfoTimeout := some (s.ts.setT .pausedInfo d).1 } := by
  intro t ht
  simp only [TimerSys.setT, List.mem_append, List.mem_singleton] at ht
  rcases ht with ht | rfl
  · have hk := hI t ht
    cases hkind : t.kind <;> rw [hkind] at hk <;> simp only [refOfKind] at hk ⊢ <;>
      first
        | exact hk
        | exact Option.noConfusion (hnone ▸ hk)
        | exact Option.noConfusion hk
  · rfl

/-- The play listener keeps the state ref-held. -/
lemma refHeld_onPlayEvent {s : PlayerState} (hI : refHeld s) :
    refHeld (onPlayEvent s) := by
  have h1 : refHeld { s with isPlaying := true, showPausedInfo := false, dimVideo := false } :=
    fun t ht => hI t ht
  exact refHeld_clear_mouseMove (refHeld_clear_pausedInfo h1)

/-- The pause listener keeps the state ref-held. -/
lemma refHeld_onPauseEvent {s : PlayerState} (hI : refHeld s) :
    refHeld (onPauseEvent s) := by
  have h1 : refHeld { s with isPlaying := false } := fun t ht => hI t ht
  have h2 := refHeld_clear_mouseMove h1
  unfold onPauseEvent
  dsimp only
  split
  · exact h2
  · next heq => exact refHeld_arm_pausedInfo 10000 h2 heq

/-- The mouse-move handler keeps the state ref-held. -/
lemma refHeld_handleMouseMove {s : PlayerState} (hI : refHeld s) :
    refHeld (handleMouseMove s) := by
  have h1 : refHeld { s with showControls := true } := fun t ht => hI t ht
  have h2 := refHeld_showControlsTemporarily h1
  have hflag : refHeld { showControlsTemporarily { s with showControls := true } with
      showPausedInfo := false, dimVideo := false } := fun t ht => h2 t ht
  unfold handleMouseMove
  split
  · exact hI
  · dsimp only
    split <;> split <;>
      first
        | exact refHeld_arm_mouseMove 2000 (refHeld_clear_mouseMove hflag) rfl
        | exact refHeld_arm_mouseMove 2000 (refHeld_clear_mouseMove h2) rfl
        | exact refHeld_clear_mouseMove hflag
        | exact refHeld_clear_mouseMove h2

/-- Passing time keeps the state ref-held. -/
lemma refHeld_advance {s : PlayerState} (d : ℕ) (hI : refHeld s) :
    refHeld (advance d s) := fun t ht => hI t ht

/-- The operations of the player that schedule or cancel ref-managed
timeouts, plus the passage of time. -/
inductive PlayerOp where
  | volOverlayOp : ℚ → PlayerOp
  | flashOp : FlashKind → PlayerOp
  | cursorOp : ℚ → ℚ → PlayerOp
  | controlsOp : PlayerOp
  | rippleOp : ℚ → ℚ → PlayerOp
  | mouseMoveOp : PlayerOp
  | pauseOp : PlayerOp
  | playOp : PlayerOp
  | waitOp : ℕ → PlayerOp

/-- Interpretation of one operation. -/
def applyOp (s : PlayerState) : PlayerOp → PlayerState
  | .volOverlayOp v => showVolOverlay v s
  | .flashOp k => triggerFlash k s
  | .cursorOp x y => showCursorTransient x y s
  | .controlsOp => showControlsTemporarily s
  | .rippleOp x y => triggerRipple x y s
  | .mouseMoveOp => handleMouseMove s
  | .pauseOp => onPauseEvent s
  | .playOp => onPlayEvent s
  | .waitOp d => advance d s

/-- Interpretation of a sequence of operations. -/
def applyOps (ops : List PlayerOp) (s : PlayerState) : PlayerState :=
  ops.foldl applyOp s

/-- Every operation keeps the state ref-held. -/
lemma refHeld_applyOp {s : PlayerState} (op : PlayerOp) (hI : refHeld s) :
    refHeld (applyOp s op) := by
  cases op with
  | volOverlayOp v => exact refHeld_showVolOverlay v hI
  | flashOp k => exact refHeld_triggerFlash k hI
  | cursorOp x y => exact refHeld_showCursorTransient x y hI
  | controlsOp => exact refHeld_showControlsTemporarily hI
  | rippleOp x y => exact refHeld_triggerRipple x y hI
  | mouseMoveOp => exact refHeld_handleMouseMove hI
  | pauseOp => exact refHeld_onPauseEvent hI
  | playOp => exact refHeld_onPlayEvent hI
  | waitOp d => exact refHeld_advance d hI

/-- Every sequence of operations keeps the state ref-held. -/
lemma refHeld_applyOps (ops : List PlayerOp) :
    ∀ {s : PlayerState}, refHeld s → refHeld (applyOps ops s) := by
  induction ops with
  | nil => intro s h; exact h
  | cons op rest ih => intro s h; exact ih (refHeld_applyOp op h)

/-- Counterexample to C9 as stated: a pending language-HUD timeout (whose
handle `showLanguageOverlay` discards) survives the whole teardown — a
timer scheduled by the player is still pending after cleanup. -/
theorem c9_counterexample :
    (unmountCleanup (showLanguageOverlay .subtitleKind "English" initStateB)).ts.pending =
      [⟨0, .langHud, 1600⟩] ∧
    ([⟨0, .langHud, 1600⟩] : List PendingTimer) ≠ [] := by
  refine ⟨by decide, by decide⟩

/-- C9 amended: after any sequence of the ref-managed trigger operations
(controls, cursor, flash, volume HUD, paused info, mouse move, ripple,
play/pause events, time passing), the unmount teardown clears every
pending timeout and destroys the engine.  (Anonymous timeouts — language
HUD, menu fade, soft-error clear — are not covered by the cleanup and can
survive it.) -/
theorem c9_cleanup (ops : List PlayerOp) :
    (unmountCleanup (applyOps ops initStateB)).ts.pending = [] ∧
    (unmountCleanup (applyOps ops initStateB)).hls = none := by
  refine ⟨unmountCleanup_pending_nil (refHeld_applyOps ops ?_), rfl⟩
  intro t ht
  exact absurd ht (List.not_mem_nil t)

end StreamingWeb
